import Mathlib

/-!
Shallow embedding of `src/id_working_days/calendar.py` (WorkingDayLib).

Dates are modelled as rata-die day numbers (`Nat`): the number of days since
0000-03-01 in the proleptic Gregorian calendar, matching pandas timestamps at
whole-day granularity.  `toRD`/`civilFromRD` are the standard civil-calendar
conversions (Euclidean-affine form); `weekdayOf` returns 0 = Sunday .. 6 =
Saturday.

The external `holidays.country_holidays("ID", years=...)` collaborator is
modelled as a parameter `src : Nat → List (Nat × String)` mapping a year to its
(date, name) holiday records; the library returns a dict keyed by date, whose
`sorted(...items())` is modelled by a stable sort by date over the union of the
queried years (dict keys are unique dates, so ties cannot arise in the source).

Python exceptions that the claims touch (`pd.date_range(periods=n)` with a
negative `n` raises `ValueError`) are modelled with `Except PyError`.
-/

/-- Gregorian leap-year test (not needed by the pipeline itself, kept for the
calendar sanity lemmas). -/
def isLeap (y : Nat) : Bool :=
  y % 4 == 0 && (y % 100 != 0 || y % 400 == 0)

/-- Rata-die day number of the civil date y-m-d: days since 0000-03-01
(valid for y ≥ 1, 1 ≤ m ≤ 12). -/
def toRD (y m d : Nat) : Nat :=
  let y' := if m ≤ 2 then y - 1 else y
  let mp := if m ≤ 2 then m + 9 else m - 3
  y' * 365 + y' / 4 - y' / 100 + y' / 400 + (153 * mp + 2) / 5 + (d - 1)

/-- Inverse of `toRD`: the civil date (year, month, day) of a rata-die day
number. -/
def civilFromRD (z : Nat) : Nat × Nat × Nat :=
  let era := z / 146097
  let doe := z % 146097
  let yoe := (doe - doe / 1460 + doe / 36524 - doe / 146096) / 365
  let y := yoe + era * 400
  let doy := doe - (365 * yoe + yoe / 4 - yoe / 100)
  let mp := (5 * doy + 2) / 153
  let d := doy - (153 * mp + 2) / 5 + 1
  let m := if mp < 10 then mp + 3 else mp - 9
  if m ≤ 2 then (y + 1, m, d) else (y, m, d)

/-- Calendar year of a rata-die day number. -/
def yearOf (z : Nat) : Nat := (civilFromRD z).1

/-- Year and month of a rata-die day number: the pandas monthly period key. -/
def yearMonthOf (z : Nat) : Nat × Nat :=
  ((civilFromRD z).1, (civilFromRD z).2.1)

/-- Weekday of a rata-die day number, 0 = Sunday, 1 = Monday, ..., 6 =
Saturday (0000-03-01 was a Wednesday). -/
def weekdayOf (z : Nat) : Nat := (z + 3) % 7

/-- December 31 of year `y`, as a rata-die number. -/
def dec31 (y : Nat) : Nat := toRD y 12 31

/-- All days from `s` to `e` inclusive (empty when `e < s`): the calendar
enumeration underlying `pd.date_range(start, end)`. -/
def rangeIncl (s e : Nat) : List Nat := List.range' s (e + 1 - s)

/-- Model of `pd.date_range(start=s, end=e, freq="YE").year` (calendar.py line 42):
the years whose December-31 instant lies within `[s, e]`.  Candidates are
drawn from `[yearOf s, yearOf e]`, which loses nothing: a year below
`yearOf s` has its Dec 31 before `s`, and one above `yearOf e` has it
after `e`. -/
def yearEndsBetween (s e : Nat) : List Nat :=
  (((List.range (yearOf e + 1 - yearOf s)).map (· + yearOf s)).filter
    fun y => decide (s ≤ dec31 y) && decide (dec31 y ≤ e))

/-- Tests whether `p` occurs at the head of `l` (code-point lists). -/
def leadsWith : List Nat → List Nat → Bool
  | [], _ => true
  | _ :: _, [] => false
  | c :: cs, h :: hs => c == h && leadsWith cs hs

/-- Tests whether `p` occurs contiguously somewhere in `l` (code-point-list substring
test). -/
def hasSub (p : List Nat) : List Nat → Bool
  | [] => p.isEmpty
  | h :: t => leadsWith p (h :: t) || hasSub p t

/-- ASCII lower-casing of one Unicode code point (the two patterns and the
provider's labels are ASCII). -/
def lowerCode (n : Nat) : Nat :=
  if 65 ≤ n && n ≤ 90 then n + 32 else n

/-- The code points of a string, lower-cased. -/
def lowerCodes (s : String) : List Nat :=
  s.data.map fun c => lowerCode c.toNat

/-- Case-insensitive substring test: pandas
`Series.str.contains(pat, case=False)` (the two patterns used contain no
regex metacharacters, so the regex reading coincides with the literal one). -/
def containsCI (hay pat : String) : Bool :=
  hasSub (lowerCodes pat) (lowerCodes hay)

/-- The exact label of the second day of Idul Fitri (calendar.py lines 48, 57). -/
def iedLabel : String := "Hari kedua dari Hari Raya Idul Fitri (perkiraan)"

/-- The Christmas name pattern (calendar.py lines 49, 61). -/
def natalLabel : String := "Hari Raya Natal"

/-- The New Year name pattern (calendar.py line 50). -/
def tahunBaruLabel : String := "Tahun Baru Masehi"

/-- The seasonal-event row filter, calendar.py lines 47-51: exact Idul Fitri
label, or case-insensitive substring match for Christmas / New Year. -/
def seasonalMatch (nm : String) : Bool :=
  nm == iedLabel || containsCI nm natalLabel || containsCI nm tahunBaruLabel

/-- The per-row dispatch of the extension loop, calendar.py lines 57-68: exact
equality against the Idul Fitri label, then exact equality against
"Hari Raya Natal", else the New Year count. -/
def dispatchCount (ied_fitr christmas new_year : Option Int) (nm : String) :
    Option Int :=
  if nm == iedLabel then ied_fitr
  else if nm == natalLabel then christmas
  else new_year

/-- The Python errors this pipeline can raise in our scope:
`pd.date_range(..., periods=n)` with `n < 0` raises `ValueError`. -/
inductive PyError where
  | negativePeriods
  deriving DecidableEq, Repr

/-- Stable insertion of a record into a date-sorted list. -/
def insertByDate (r : Nat × String) : List (Nat × String) → List (Nat × String)
  | [] => [r]
  | h :: t => if r.1 < h.1 then r :: h :: t else h :: insertByDate r t

/-- Stable sort of holiday records by date: `sorted(...)` on the dict items
(keys are distinct dates) at line 42 and `sort_values('date')` at line 79. -/
def sortByDate : List (Nat × String) → List (Nat × String)
  | [] => []
  | h :: t => insertByDate h (sortByDate t)

/-- The extension-generation loop, calendar.py lines 53-74: for each seasonal
row in order, look up its count via `dispatchCount`; `None` skips the row,
a negative count raises (from `pd.date_range(periods=...)`), and a count
`n ≥ 0` contributes the `n` consecutive days from the row's date, each named
"extend " ++ the original name. -/
def extRecords (ied_fitr christmas new_year : Option Int) :
    List (Nat × String) → Except PyError (List (Nat × String))
  | [] => .ok []
  | (d, nm) :: t =>
    match dispatchCount ied_fitr christmas new_year nm with
    | none => extRecords ied_fitr christmas new_year t
    | some n =>
      if n < 0 then .error .negativePeriods
      else
        match extRecords ied_fitr christmas new_year t with
        | .error er => .error er
        | .ok rest =>
          .ok (((List.range n.toNat).map fun i => (d + i, "extend " ++ nm)) ++ rest)

/-- The weekmask choice, calendar.py line 82: Mon-Sat iff `type` is `None` or
`0`, Mon-Fri otherwise. -/
def sixDayMask (type : Option Int) : Bool :=
  type == none || type == some 0

/-- Membership of a day in the `CustomBusinessDay` frequency (lines 83-86):
its weekday is in the weekmask and it is not a holiday date. -/
def isBusinessDay (type : Option Int) (hols : List (Nat × String)) (d : Nat) :
    Bool :=
  (if sixDayMask type then weekdayOf d != 0
   else weekdayOf d != 0 && weekdayOf d != 6) &&
  !(hols.any fun r => r.1 == d)

/-- The base holiday table (calendar.py lines 41-44): the provider's records
for the probed years, as date-sorted rows. -/
def baseHolidays (src : Nat → List (Nat × String)) (start en : Nat) :
    List (Nat × String) :=
  sortByDate (((yearEndsBetween start en).map src).flatten)

/-- The `seasonal_event` rows (calendar.py lines 47-51). -/
def seasonalEvents (src : Nat → List (Nat × String)) (start en : Nat) :
    List (Nat × String) :=
  (baseHolidays src start en).filter fun r => seasonalMatch r.2

/-- Model of `working_date` (calendar.py lines 7-90): base holidays for the probed
years, seasonal filtering, extension generation, then enumeration of the
business days of `[start, en]` under the custom frequency.  The returned
DataFrame's single column is modelled as the list of its dates. -/
def working_date (src : Nat → List (Nat × String)) (start en : Nat)
    (type : Option Int := none) (ied_fitr : Option Int := some 3)
    (christmas : Option Int := none) (new_year : Option Int := none) :
    Except PyError (List Nat) :=
  match extRecords ied_fitr christmas new_year (seasonalEvents src start en) with
  | .error er => .error er
  | .ok additional_holiday =>
    .ok ((rangeIncl start en).filter fun d =>
      isBusinessDay type
        (sortByDate (baseHolidays src start en ++ additional_holiday)) d)

/-- Model of `total_working_day` (calendar.py lines 93-111): the size of the
`working_date` frame;
the frame has exactly one column, so `.size` is its number of rows. -/
def total_working_day (src : Nat → List (Nat × String)) (start en : Nat)
    (type : Option Int := none) (ied_fitr : Option Int := some 3)
    (christmas : Option Int := none) (new_year : Option Int := none) :
    Except PyError Nat :=
  match working_date src start en type ied_fitr christmas new_year with
  | .error er => .error er
  | .ok wd => .ok wd.length

/-- Run-length grouping of an (already chronologically ordered) key list:
`groupby('Year-Month').size()` at line 135.  The working dates ascend, so
their year-month keys are nondecreasing and consecutive runs are exactly the
groupby groups, listed in ascending key order as pandas does. -/
def groupCounts : List (Nat × Nat) → List ((Nat × Nat) × Nat)
  | [] => []
  | k :: t =>
    match groupCounts t with
    | [] => [(k, 1)]
    | (k', n) :: rest =>
      if k == k' then (k, n + 1) :: rest else (k, 1) :: (k', n) :: rest

/-- Model of `working_day` (calendar.py lines 114-136): the monthly breakdown, one
(year-month, count) row per month occurring in the working-date sequence. -/
def working_day (src : Nat → List (Nat × String)) (start en : Nat)
    (type : Option Int := none) (ied_fitr : Option Int := some 3)
    (christmas : Option Int := none) (new_year : Option Int := none) :
    Except PyError (List ((Nat × Nat) × Nat)) :=
  match working_date src start en type ied_fitr christmas new_year with
  | .error er => .error er
  | .ok wd => .ok (groupCounts (wd.map yearMonthOf))

/-! ## Calendar sanity lemmas -/

theorem toRD_epoch : toRD 1970 1 1 = 719468 := by decide

theorem civilFromRD_epoch : civilFromRD 719468 = (1970, 1, 1) := by decide

theorem weekdayOf_jan1_2025 : weekdayOf (toRD 2025 1 1) = 3 := by decide

/-! ## Helper lemmas -/

theorem yearEndsBetween_of_lt (s e : Nat) (h : e < s) :
    yearEndsBetween s e = [] := by
  unfold yearEndsBetween
  rw [List.filter_eq_nil_iff]
  intro y hy
  simp only [Bool.and_eq_true, decide_eq_true_eq, not_and]
  intro h1 h2
  omega

theorem rangeIncl_of_lt (s e : Nat) (h : e < s) : rangeIncl s e = [] := by
  unfold rangeIncl
  have h0 : e + 1 - s = 0 := by omega
  rw [h0]
  rfl

theorem working_date_ok_shape (src : Nat → List (Nat × String)) (s e : Nat)
    (type i c n : Option Int) (wd : List Nat)
    (h : working_date src s e type i c n = .ok wd) :
    ∃ hols, wd = (rangeIncl s e).filter fun d => isBusinessDay type hols d := by
  unfold working_date at h
  cases hx : extRecords i c n (seasonalEvents src s e) with
  | error er => rw [hx] at h; exact absurd h (by simp)
  | ok add =>
    rw [hx] at h
    injection h with h'
    exact ⟨_, h'.symm⟩

theorem groupCounts_sum (l : List (Nat × Nat)) :
    ((groupCounts l).map Prod.snd).sum = l.length := by
  induction l with
  | nil => rfl
  | cons k t ih =>
    unfold groupCounts
    cases hg : groupCounts t with
    | nil =>
      rw [hg] at ih
      simp only [List.map_nil, List.sum_nil] at ih
      simp [← ih]
    | cons p rest =>
      obtain ⟨k', m⟩ := p
      rw [hg] at ih
      simp only [List.map_cons, List.sum_cons] at ih
      by_cases hk : (k == k') = true
      · simp only [hk, if_true, List.map_cons, List.sum_cons, List.length_cons]
        omega
      · simp only [hk, if_false, Bool.false_eq_true, List.map_cons,
          List.sum_cons, List.length_cons]
        omega

/-! ## Claim theorems -/

/-- C1: the spec states that the probed year set always includes the year of
`end`; in the code the probe instants are the December-31 days lying inside
`[start, end]`, so for start = 2025-01-01, end = 2025-01-31 NO year at all is
probed (in particular not 2025, the year of `end`); the year of `end` is
probed exactly when `end` is itself a December 31, as the third conjunct
illustrates. -/
theorem c1_end_year_not_probed :
    yearEndsBetween (toRD 2025 1 1) (toRD 2025 1 31) = [] ∧
    yearOf (toRD 2025 1 31) = 2025 ∧
    yearEndsBetween (toRD 2025 1 1) (toRD 2025 12 31) = [2025] :=
  ⟨by decide, by decide, by decide⟩

/-- C2: for start = 2025-01-01, end = 2025-01-31, six-day pattern,
ied_fitr = 3, christmas/new_year unset, the code probes no holiday year at
all (whatever the holiday source holds), so the result is every non-Sunday of
January 2025 — 27 dates INCLUDING January 1, 2025 (New Year's Day), against
the claimed exclusion of the New Year holiday and count 26. -/
theorem c2_new_year_day_not_excluded (src : Nat → List (Nat × String)) :
    working_date src (toRD 2025 1 1) (toRD 2025 1 31) none (some 3) none none =
      .ok ((rangeIncl (toRD 2025 1 1) (toRD 2025 1 31)).filter
        fun d => weekdayOf d != 0) ∧
    toRD 2025 1 1 ∈ ((rangeIncl (toRD 2025 1 1) (toRD 2025 1 31)).filter
        fun d => weekdayOf d != 0) ∧
    ((rangeIncl (toRD 2025 1 1) (toRD 2025 1 31)).filter
        fun d => weekdayOf d != 0).length = 27 :=
  ⟨rfl, by decide, by decide⟩

/-- C5: with start strictly after end, `working_date` returns an empty
sequence and `total_working_day` returns 0, with no error, for every holiday
source, pattern and extension configuration. -/
theorem c5_empty_range (src : Nat → List (Nat × String)) (s e : Nat)
    (type i c n : Option Int) (h : e < s) :
    working_date src s e type i c n = .ok [] ∧
    total_working_day src s e type i c n = .ok 0 := by
  have h1 : seasonalEvents src s e = [] := by
    unfold seasonalEvents baseHolidays
    rw [yearEndsBetween_of_lt s e h]
    rfl
  have h2 : working_date src s e type i c n = .ok [] := by
    unfold working_date
    rw [h1]
    show Except.ok ((rangeIncl s e).filter _) = _
    rw [rangeIncl_of_lt s e h]
    rfl
  refine ⟨h2, ?_⟩
  unfold total_working_day
  rw [h2]
  rfl

/-- C5 witness at start = day 5, end = day 3. -/
theorem c5_empty_range_witness :
    working_date (fun _ => []) 5 3 none (some 3) none none = .ok [] ∧
    total_working_day (fun _ => []) 5 3 none (some 3) none none = .ok 0 :=
  c5_empty_range (fun _ => []) 5 3 none (some 3) none none (by decide)

/-- C6: for every input and holiday source, the working-day count equals the
length of the working-date sequence (both propagate the same error when one
occurs). -/
theorem c6_count_eq_length (src : Nat → List (Nat × String)) (s e : Nat)
    (type i c n : Option Int) :
    total_working_day src s e type i c n =
      (working_date src s e type i c n).map List.length := by
  unfold total_working_day
  cases working_date src s e type i c n <;> rfl

/-- C7: for every input and holiday source, the sum of the per-month counts
of the monthly breakdown equals the working-day count (both propagate the
same error when one occurs). -/
theorem c7_monthly_sum_eq_count (src : Nat → List (Nat × String)) (s e : Nat)
    (type i c n : Option Int) :
    (working_day src s e type i c n).map (fun mb => (mb.map Prod.snd).sum) =
      total_working_day src s e type i c n := by
  unfold working_day total_working_day
  cases working_date src s e type i c n with
  | error er => rfl
  | ok wd => simp [Except.map, groupCounts_sum]

/-- C8: on success the working-date sequence is strictly increasing and lies
within `[s, e]`. -/
theorem c8_sorted_within_range (src : Nat → List (Nat × String)) (s e : Nat)
    (type i c n : Option Int) (wd : List Nat) (hse : s ≤ e)
    (h : working_date src s e type i c n = .ok wd) :
    wd.Pairwise (· < ·) ∧ ∀ d ∈ wd, s ≤ d ∧ d ≤ e := by
  obtain ⟨hols, hwd⟩ := working_date_ok_shape src s e type i c n wd h
  subst hwd
  unfold rangeIncl
  constructor
  · exact List.Pairwise.filter _ (List.pairwise_lt_range' s (e + 1 - s))
  · intro d hd
    have hd' := (List.mem_filter.mp hd).1
    have := List.mem_range'_1.mp hd'
    omega

/-- C8 witness: January 1-4, 2025 (rata die 739557-739560) with an empty
holiday source. -/
theorem c8_witness :
    ([739557, 739558, 739559, 739560] : List Nat).Pairwise (· < ·) ∧
    ∀ d ∈ ([739557, 739558, 739559, 739560] : List Nat),
      739557 ≤ d ∧ d ≤ 739560 :=
  c8_sorted_within_range (fun _ => []) 739557 739560 none (some 3) none none
    [739557, 739558, 739559, 739560] (by decide) rfl

/-- C9: every `type` other than `none` and `0` selects the five-day Mon-Fri
weekmask — the computation agrees with `type = 1` and its output avoids
Saturday and Sunday; no validation rejects such values. -/
theorem c9_nonzero_type_five_day (src : Nat → List (Nat × String)) (s e : Nat)
    (i c nw : Option Int) (n : Int) (hn : n ≠ 0) :
    working_date src s e (some n) i c nw =
      working_date src s e (some 1) i c nw ∧
    ∀ wd, working_date src s e (some n) i c nw = .ok wd →
      ∀ d ∈ wd, weekdayOf d ≠ 0 ∧ weekdayOf d ≠ 6 := by
  have hmask : sixDayMask (some n) = false := by
    simp [sixDayMask, hn]
  have hmask1 : sixDayMask (some 1) = false := by decide
  have heq : ∀ hols d, isBusinessDay (some n) hols d =
      isBusinessDay (some 1) hols d := by
    intro hols d
    unfold isBusinessDay
    rw [hmask, hmask1]
  constructor
  · unfold working_date
    cases extRecords i c nw (seasonalEvents src s e) with
    | error er => rfl
    | ok add =>
      show Except.ok _ = Except.ok _
      exact congrArg Except.ok (List.filter_congr fun d _ => heq _ d)
  · intro wd hwd d hd
    obtain ⟨hols, hsh⟩ := working_date_ok_shape src s e (some n) i c nw wd hwd
    subst hsh
    have hb := (List.mem_filter.mp hd).2
    unfold isBusinessDay at hb
    rw [hmask] at hb
    simp only [Bool.false_eq_true, if_false, Bool.and_eq_true, bne_iff_ne,
      ne_eq] at hb
    exact ⟨hb.1.1, hb.1.2⟩

/-- C9 witness at `type = -1` (a value outside both enumerated variants). -/
theorem c9_witness :
    working_date (fun _ => []) 739557 739560 (some (-1)) (some 3) none none =
      working_date (fun _ => []) 739557 739560 (some 1) (some 3) none none ∧
    ∀ wd, working_date (fun _ => []) 739557 739560 (some (-1)) (some 3) none
        none = .ok wd →
      ∀ d ∈ wd, weekdayOf d ≠ 0 ∧ weekdayOf d ≠ 6 :=
  c9_nonzero_type_five_day (fun _ => []) 739557 739560 (some 3) none none (-1)
    (by decide)

/-- A row whose dispatched count is unset is skipped by the extension loop. -/
theorem extRecords_cons_none {i c n : Option Int} {d : Nat} {nm : String}
    {t : List (Nat × String)} (hd : dispatchCount i c n nm = none) :
    extRecords i c n ((d, nm) :: t) = extRecords i c n t := by
  simp [extRecords, hd]

/-- A row whose dispatched count is negative raises the negative-periods
error. -/
theorem extRecords_cons_neg {i c n : Option Int} {d : Nat} {nm : String}
    {t : List (Nat × String)} {m : Int}
    (hd : dispatchCount i c n nm = some m) (hm : m < 0) :
    extRecords i c n ((d, nm) :: t) = .error .negativePeriods := by
  simp [extRecords, hd, hm]

/-- A row whose dispatched count is `m ≥ 0` contributes its `m` consecutive
days before the remaining rows' records. -/
theorem extRecords_cons_nonneg {i c n : Option Int} {d : Nat} {nm : String}
    {t : List (Nat × String)} {m : Int}
    (hd : dispatchCount i c n nm = some m) (hm : ¬m < 0) :
    extRecords i c n ((d, nm) :: t) =
      match extRecords i c n t with
      | .error er => .error er
      | .ok rest =>
        .ok (((List.range m.toNat).map fun j => (d + j, "extend " ++ nm)) ++
          rest) := by
  simp [extRecords, hd, hm]

/-- The error characterization of the extension loop: it fails exactly when
some row's dispatched count is negative. -/
theorem extRecords_isOk_iff (i c n : Option Int) (l : List (Nat × String)) :
    (extRecords i c n l).isOk = false ↔
      ∃ r ∈ l, ∃ m : Int, dispatchCount i c n r.2 = some m ∧ m < 0 := by
  induction l with
  | nil => simp [extRecords, Except.isOk, Except.toBool]
  | cons r t ih =>
    obtain ⟨d, nm⟩ := r
    rw [List.exists_mem_cons_iff]
    cases hd : dispatchCount i c n nm with
    | none =>
      rw [extRecords_cons_none hd, ih]
      constructor
      · exact Or.inr
      · rintro (⟨m1, hm1, _⟩ | h)
        · cases hm1
        · exact h
    | some m =>
      by_cases hm : m < 0
      · rw [extRecords_cons_neg hd hm]
        exact iff_of_true rfl (Or.inl ⟨m, rfl, hm⟩)
      · rw [extRecords_cons_nonneg hd hm]
        cases hx : extRecords i c n t with
        | error er =>
          rw [hx] at ih
          exact iff_of_true rfl (Or.inr (ih.mp rfl))
        | ok rest =>
          rw [hx] at ih
          refine iff_of_false (by simp [Except.isOk, Except.toBool]) ?_
          rintro (⟨m1, hm1, hlt⟩ | htail)
          · injection hm1 with hinj
            omega
          · have hcontr := ih.mpr htail
            simp [Except.isOk, Except.toBool] at hcontr

/-- C4 (amended): there is no fail-fast validation of negative extension
counts; the computation fails exactly when a matched seasonal row's
dispatched extension count is negative — in particular it SUCCEEDS whenever
no seasonal row is matched, whatever negative counts were supplied. -/
theorem c4_no_fail_fast (src : Nat → List (Nat × String)) (s e : Nat)
    (type i c n : Option Int) :
    (working_date src s e type i c n).isOk = false ↔
      ∃ r ∈ seasonalEvents src s e, ∃ m : Int,
        dispatchCount i c n r.2 = some m ∧ m < 0 := by
  rw [← extRecords_isOk_iff i c n (seasonalEvents src s e)]
  unfold working_date
  cases extRecords i c n (seasonalEvents src s e) <;> exact Iff.rfl

/-- C4 counterexample: with all three extension counts negative, December
2025 (year 2025 IS probed here) and a source holding only the non-seasonal
Independence Day record, the computation succeeds — no InvalidExtensionValue
failure happens, let alone before the lookup.  With a matched Christmas
record and a negative count, the failure that does occur is the
negative-periods error of extension generation, downstream of the lookup. -/
theorem c4_counterexample :
    (working_date (fun _ => [(toRD 2025 8 17, "Hari Kemerdekaan")])
      (toRD 2025 12 1) (toRD 2025 12 31) none (some (-1)) (some (-2))
      (some (-3))).isOk = true ∧
    working_date (fun _ => [(toRD 2025 12 25, "Hari Raya Natal")])
      (toRD 2025 12 1) (toRD 2025 12 31) none none (some (-2)) none =
      .error .negativePeriods :=
  ⟨rfl, rfl⟩

/-- C3 counterexample: "Cuti Bersama Hari Raya Natal" is matched by the
seasonal filter via the Christmas substring pattern (and is not the exact
`natalLabel`), yet with the Christmas count UNSET and the New Year count set
to 2, the loop generates two extension records for it — the record's own
cluster being unset does not prevent generation, because the loop dispatches
by exact name, not by which filter matched. -/
theorem c3_counterexample :
    seasonalMatch ("Cuti Bersama Hari Raya Natal") = true ∧
    containsCI ("Cuti Bersama Hari Raya Natal") natalLabel = true ∧
    ("Cuti Bersama Hari Raya Natal" == natalLabel) = false ∧
    extRecords none none (some 2)
      [(toRD 2025 12 26, "Cuti Bersama Hari Raya Natal")] =
    .ok [(toRD 2025 12 26, "extend Cuti Bersama Hari Raya Natal"),
         (toRD 2025 12 26 + 1, "extend Cuti Bersama Hari Raya Natal")] :=
  ⟨by decide, by decide, by decide, rfl⟩

/-- C3 (amended): the count used for a matched row is chosen by exact-name
dispatch (Idul Fitri label exactly, else "Hari Raya Natal" exactly, else the
New Year count).  When every dispatched count is nonnegative-or-unset, each
row with an unset dispatched count contributes nothing, and each row with
dispatched count `m ≥ 0` contributes exactly the `m` consecutive days from
its date, labeled "extend " ++ its name. -/
theorem c3_extension_semantics (i c n : Option Int) (l : List (Nat × String))
    (h : ∀ r ∈ l, ∀ m : Int, dispatchCount i c n r.2 = some m → 0 ≤ m) :
    extRecords i c n l = .ok (l.flatMap fun r =>
      match dispatchCount i c n r.2 with
      | none => []
      | some m => (List.range m.toNat).map fun j =>
          (r.1 + j, "extend " ++ r.2)) := by
  induction l with
  | nil => rfl
  | cons r t ih =>
    obtain ⟨d, nm⟩ := r
    have ht : ∀ r ∈ t, ∀ m : Int, dispatchCount i c n r.2 = some m → 0 ≤ m :=
      fun r hr => h r (List.mem_cons_of_mem _ hr)
    cases hd : dispatchCount i c n nm with
    | none => simp [extRecords, hd, ih ht]
    | some m =>
      have hm : 0 ≤ m := h (d, nm) (List.mem_cons_self _ _) m hd
      simp only [extRecords, hd]
      rw [if_neg (show ¬m < 0 by omega), ih ht]
      simp [hd]

/-- C3 amendment witness: an exact "Hari Raya Natal" row with christmas = 1
generates exactly its one extension record. -/
theorem c3_extension_semantics_witness :
    extRecords (some 3) (some 1) none [(739915, "Hari Raya Natal")] =
      .ok [(739915, "extend Hari Raya Natal")] := by
  have hs := c3_extension_semantics (some 3) (some 1) none
    [(739915, "Hari Raya Natal")]
    (by
      intro r hr m hm
      rw [List.mem_singleton] at hr
      subst hr
      have hd : dispatchCount (some 3) (some 1) none ("Hari Raya Natal") =
          some 1 := rfl
      rw [hd] at hm
      injection hm with hm'
      omega)
  rw [hs]
  rfl

/-- Congruence of the extension loop under pointwise equivalent dispatched
counts, where `some 0` and `none` count as equivalent (both contribute no
records). -/
theorem extRecords_count_equiv (i c n i' c' n' : Option Int)
    (hpt : ∀ nm : String,
      dispatchCount i c n nm = dispatchCount i' c' n' nm ∨
      (dispatchCount i c n nm = some 0 ∧ dispatchCount i' c' n' nm = none) ∨
      (dispatchCount i c n nm = none ∧ dispatchCount i' c' n' nm = some 0))
    (l : List (Nat × String)) :
    extRecords i c n l = extRecords i' c' n' l := by
  induction l with
  | nil => rfl
  | cons r t ih =>
    obtain ⟨d, nm⟩ := r
    rcases hpt nm with heq | ⟨h1, h2⟩ | ⟨h1, h2⟩
    · simp only [extRecords, heq, ih]
    · simp only [extRecords, h1, h2]
      rw [if_neg (show ¬(0 : Int) < 0 by omega), ih]
      cases extRecords i' c' n' t <;> simp
    · simp only [extRecords, h1, h2]
      rw [if_neg (show ¬(0 : Int) < 0 by omega), ih]
      cases extRecords i' c' n' t <;> simp

/-- C10: an extension count of exactly 0 behaves identically to leaving that
cluster unset — `pd.date_range(periods=0)` is empty, so neither contributes
records — for each of the three clusters and each of the three public
operations. -/
theorem c10_zero_extension_equals_unset (src : Nat → List (Nat × String))
    (s e : Nat) (type i c n : Option Int) :
    (working_date src s e type (some 0) c n =
        working_date src s e type none c n ∧
      total_working_day src s e type (some 0) c n =
        total_working_day src s e type none c n ∧
      working_day src s e type (some 0) c n =
        working_day src s e type none c n) ∧
    (working_date src s e type i (some 0) n =
        working_date src s e type i none n ∧
      total_working_day src s e type i (some 0) n =
        total_working_day src s e type i none n ∧
      working_day src s e type i (some 0) n =
        working_day src s e type i none n) ∧
    (working_date src s e type i c (some 0) =
        working_date src s e type i c none ∧
      total_working_day src s e type i c (some 0) =
        total_working_day src s e type i c none ∧
      working_day src s e type i c (some 0) =
        working_day src s e type i c none) := by
  have hext1 : ∀ l, extRecords (some 0) c n l = extRecords none c n l :=
    extRecords_count_equiv (some 0) c n none c n fun nm => by
      unfold dispatchCount
      by_cases h : (nm == iedLabel) = true
      · rw [if_pos h, if_pos h]
        exact Or.inr (Or.inl ⟨rfl, rfl⟩)
      · rw [if_neg h, if_neg h]
        exact Or.inl rfl
  have hext2 : ∀ l, extRecords i (some 0) n l = extRecords i none n l :=
    extRecords_count_equiv i (some 0) n i none n fun nm => by
      unfold dispatchCount
      by_cases h : (nm == iedLabel) = true
      · rw [if_pos h, if_pos h]
        exact Or.inl rfl
      · rw [if_neg h, if_neg h]
        by_cases h' : (nm == natalLabel) = true
        · rw [if_pos h', if_pos h']
          exact Or.inr (Or.inl ⟨rfl, rfl⟩)
        · rw [if_neg h', if_neg h']
          exact Or.inl rfl
  have hext3 : ∀ l, extRecords i c (some 0) l = extRecords i c none l :=
    extRecords_count_equiv i c (some 0) i c none fun nm => by
      unfold dispatchCount
      by_cases h : (nm == iedLabel) = true
      · rw [if_pos h, if_pos h]
        exact Or.inl rfl
      · rw [if_neg h, if_neg h]
        by_cases h' : (nm == natalLabel) = true
        · rw [if_pos h', if_pos h']
          exact Or.inl rfl
        · rw [if_neg h', if_neg h']
          exact Or.inr (Or.inl ⟨rfl, rfl⟩)
  have hw1 : working_date src s e type (some 0) c n =
      working_date src s e type none c n := by
    unfold working_date
    rw [hext1]
  have hw2 : working_date src s e type i (some 0) n =
      working_date src s e type i none n := by
    unfold working_date
    rw [hext2]
  have hw3 : working_date src s e type i c (some 0) =
      working_date src s e type i c none := by
    unfold working_date
    rw [hext3]
  refine ⟨⟨hw1, ?_, ?_⟩, ⟨hw2, ?_, ?_⟩, ⟨hw3, ?_, ?_⟩⟩
  · unfold total_working_day
    rw [hw1]
  · unfold working_day
    rw [hw1]
  · unfold total_working_day
    rw [hw2]
  · unfold working_day
    rw [hw2]
  · unfold total_working_day
    rw [hw3]
  · unfold working_day
    rw [hw3]
